import Mathlib

/-!
Verification of the Gemini Data Analysis MCP server (TypeScript, `index.ts` +
`types.ts`) via a shallow embedding in Lean 4.

JavaScript numbers are modelled as rationals (`ℚ`); `Math.sqrt` is modelled by
`Real.sqrt` applied to the rational radicand, which the statistics code keeps
explicit.  Strings are Lean `String`s; where character-level reasoning is
needed we work on `String.data : List Char`.  Failed numeric coercion
(`Number(x)` yielding `NaN`) is modelled as `Option.none`.
-/

namespace GeminiMCP

/-- A cell value of the parsed table: `DataRow` values are
`string | number` (src/types.ts). -/
inductive Value where
  | num (q : ℚ)
  | str (s : String)
deriving DecidableEq, Repr

/-- `DataRow`: mapping from column name to value; insertion order of keys is
the column order, so we use an association list. -/
abbrev DataRow := List (String × Value)

/-- `row[col]` — JavaScript property access; a missing key yields
`undefined`, modelled as `none`. -/
def rowGet (r : DataRow) (c : String) : Option Value :=
  (r.find? (fun p => p.1 = c)).map (fun p => p.2)

/-- `Object.keys(row)` — the row's keys in insertion order. -/
def rowKeys (r : DataRow) : List String := r.map (fun p => p.1)

/-- `typeof v === 'number'` on an optional cell value. -/
def isNumValue : Option Value → Bool
  | some (Value.num _) => true
  | _ => false

/-- JavaScript whitespace (`\s`), restricted to the common ASCII cases. -/
def isWsChar (c : Char) : Bool :=
  c = ' ' ∨ c = '\t' ∨ c = '\n' ∨ c = '\r' ∨ c = '\x0b' ∨ c = '\x0c'

/-- Strip leading and trailing whitespace from a character list. -/
def trimChars (l : List Char) : List Char :=
  (((l.dropWhile isWsChar).reverse.dropWhile isWsChar).reverse)

/-- Digits-to-number accumulator used by the decimal parser below. -/
def digitsVal (l : List Char) : Option ℕ :=
  l.foldlM (fun acc c => if c.isDigit then some (10 * acc + (c.toNat - 48)) else none) 0

/-- Model of JavaScript `Number(s)` on a string: the standard decimal cases
(optional sign, integer digits, optional fractional digits; the empty or
all-whitespace string coerces to `0`).  Strings outside this fragment are
treated as coercing to `NaN` (`none`). -/
def jsStrToNum (s : String) : Option ℚ :=
  let t := trimChars s.data
  if t = [] then some 0
  else
    let (sign, body) : ℚ × List Char :=
      match t with
      | '-' :: rest => (-1, rest)
      | '+' :: rest => (1, rest)
      | _ => (1, t)
    match body.splitOn '.' with
    | [intPart] =>
        if intPart = [] then none else
        (digitsVal intPart).map (fun n => sign * n)
    | [intPart, fracPart] =>
        if intPart = [] ∧ fracPart = [] then none else
        match digitsVal intPart, digitsVal fracPart, fracPart.length with
        | some i, some f, k => some (sign * (i + (f : ℚ) / (10 : ℚ) ^ k))
        | _, _, _ => none
    | _ => none

/-- JavaScript `Number(row[col])` returning `none` for `NaN`:
`Number(undefined)` is `NaN`; a numeric value coerces to itself; a string
goes through string-to-number coercion. -/
def toNumber : Option Value → Option ℚ
  | some (Value.num q) => some q
  | some (Value.str s) => jsStrToNum s
  | none => none

/-- `Object.keys(data[0]).filter(col => typeof data[0][col] === 'number')` —
the numeric columns, decided by the first row alone. -/
def numericColumns (r0 : DataRow) : List String :=
  (rowKeys r0).filter (fun c => isNumValue (rowGet r0 c))

/-- `data.map(row => Number(row[col])).filter(val => !isNaN(val))` — the
filtered numeric value sequence of a column. -/
def colValues (data : List DataRow) (col : String) : List ℚ :=
  data.filterMap (fun r => toNumber (rowGet r col))

/-- `Math.min(...values)` for a non-empty list (`0` as a formal default on
the empty list, which the handler never hits on a numeric column of a
non-empty filtered sequence). -/
def jsMin : List ℚ → ℚ
  | [] => 0
  | x :: xs => xs.foldl min x

/-- `Math.max(...values)` for a non-empty list. -/
def jsMax : List ℚ → ℚ
  | [] => 0
  | x :: xs => xs.foldl max x

/-- Numeric summary record for one column (src/types.ts `NumericStats`).
The code stores `std = Math.sqrt(variance)`; we keep the rational radicand
`variance` in the record and expose `std` as `Real.sqrt variance` below,
keeping the record computable. -/
structure NumericStats where
  mean : ℚ
  median : ℚ
  variance : ℚ
  min : ℚ
  max : ℚ
deriving DecidableEq, Repr

/-- `std = Math.sqrt(variance)`. -/
noncomputable def NumericStats.std (s : NumericStats) : ℝ := Real.sqrt s.variance

/-- `const mean = values.reduce((a, b) => a + b, 0) / values.length`. -/
def jsMean (values : List ℚ) : ℚ := (values.foldl (· + ·) 0) / (values.length : ℚ)

/-- `const sorted = [...values].sort((a, b) => a - b)` — the ascending sort
of the value sequence (`.sort` with a numeric comparator sorts ascending;
any correct sort of `ℚ` produces the same list). -/
def jsSorted (values : List ℚ) : List ℚ := values.insertionSort (· ≤ ·)

/-- The handler's median: the two middle elements of the ascending sort
averaged when the length is even, else the middle element
(`sorted[Math.floor(sorted.length / 2)]`). -/
def jsMedian (values : List ℚ) : ℚ :=
  let sorted := jsSorted values
  if sorted.length % 2 = 0 then
    (sorted.getD (sorted.length / 2 - 1) 0 + sorted.getD (sorted.length / 2) 0) / 2
  else sorted.getD (sorted.length / 2) 0

/-- `const variance = values.reduce((a, b) => a + Math.pow(b - mean, 2), 0) /
values.length` — the population variance. -/
def jsVariance (values : List ℚ) : ℚ :=
  (values.foldl (fun a b => a + (b - jsMean values) ^ 2) 0) / (values.length : ℚ)

/-- The per-column statistics loop body of the `analyze-data` handler:
mean, median, population variance (with `std = Math.sqrt(variance)`),
min/max via `Math.min`/`Math.max`. -/
def columnStats (values : List ℚ) : NumericStats :=
  { mean := jsMean values
    median := jsMedian values
    variance := jsVariance values
    min := jsMin values
    max := jsMax values }

/-- `Statistics` (src/types.ts): `categoricalStats` is initialised to `{}`
and never populated by the handler. -/
structure Statistics where
  rowCount : ℕ
  columnCount : ℕ
  numericStats : List (String × NumericStats)
  categoricalStats : List (String × List (String × ℕ))
deriving DecidableEq, Repr

/-- The `statistics` record built by the `analyze-data` handler from the
table and its first row. -/
def statsOf (r0 : DataRow) (data : List DataRow) : Statistics :=
  { rowCount := data.length
    columnCount := (rowKeys r0).length
    numericStats :=
      (numericColumns r0).map (fun col => (col, columnStats (colValues data col)))
    categoricalStats := [] }

/-- The statistics computation of the `analyze-data` handler.  `data[0]` on
an empty table is `undefined` and makes the handler throw (see the dispatch
model below), so the empty case yields `none` here. -/
def summarize (data : List DataRow) : Option Statistics :=
  match data with
  | [] => none
  | r0 :: _ => some (statsOf r0 data)

/-! ### Histogram binning (`analyze-data` handler, plot loop) -/

/-- `const binCount = Math.min(20, Math.floor(Math.sqrt(values.length)))`. -/
def binCount (V : List ℚ) : ℕ := min 20 (Nat.sqrt V.length)

/-- `const binWidth = (max - min) / binCount`. -/
def binWidth (V : List ℚ) : ℚ := (jsMax V - jsMin V) / (binCount V : ℚ)

/-- `const binIndex = Math.min(binCount - 1, Math.floor((val - min) / binWidth))`. -/
def binIndexOf (V : List ℚ) (v : ℚ) : ℤ :=
  min ((binCount V : ℤ) - 1) ⌊(v - jsMin V) / binWidth V⌋

/-- `const bins = Array.from({length: binCount}, (_, i) => min + i * binWidth)`. -/
def histBins (V : List ℚ) : List ℚ :=
  (List.range (binCount V)).map (fun i => jsMin V + (i : ℚ) * binWidth V)

/-- The `values.forEach(val => counts[binIndex]++)` loop: each in-range bin
holds the number of values assigned to it (out-of-range indices update no
array slot). -/
def histCounts (V : List ℚ) : List ℕ :=
  (List.range (binCount V)).map (fun i => (V.filter (fun v => binIndexOf V v = (i : ℤ))).length)

/-! ### The example table `[{a:1,b:"x"},{a:2,b:"y"},{a:3,b:"z"}]` -/

def exRow0 : DataRow := [("a", Value.num 1), ("b", Value.str "x")]

def exRow1 : DataRow := [("a", Value.num 2), ("b", Value.str "y")]

def exRow2 : DataRow := [("a", Value.num 3), ("b", Value.str "z")]

def exampleTable : List DataRow := [exRow0, exRow1, exRow2]

/-! ### Tool-call arguments and zod schema validation

`GenerateThinkingSchema`, `SendEmailSchema` and `AnalyzeDataSchema` are
`z.object` schemas; `Schema.parse(args)` either returns the typed argument
record or throws a `ZodError` holding a list of issues, each naming the
offending field by path. -/

/-- A JSON-like argument value, as delivered in `request.params.arguments`. -/
inductive Json where
  | null
  | bool (b : Bool)
  | num (q : ℚ)
  | str (s : String)
  | arr (items : List Json)
  | obj (fields : List (String × Json))

/-- The zod type name of a value, used in `invalid_type` messages. -/
def typeName : Json → String
  | .null => "null"
  | .bool _ => "boolean"
  | .num _ => "number"
  | .str _ => "string"
  | .arr _ => "array"
  | .obj _ => "object"

/-- One validation issue: the path of the offending field and a message. -/
structure ZodIssue where
  path : List String
  message : String
deriving DecidableEq, Repr

/-- Property lookup on an argument object. -/
def getField (o : List (String × Json)) (k : String) : Option Json :=
  (o.find? (fun p => p.1 = k)).map (fun p => p.2)

/-- Issues of a `z.string()` field (`.optional()` when `required = false`):
a missing required field is `Required`; a present field of a non-string
type is an `invalid_type` issue. -/
def checkStr (o : List (String × Json)) (k : String) (required : Bool) : List ZodIssue :=
  match getField o k with
  | none => if required then [⟨[k], "Required"⟩] else []
  | some (.str _) => []
  | some v => [⟨[k], "Expected string, received " ++ typeName v⟩]

/-- Issues of the `analysisType: z.enum(['basic', 'detailed'])` field. -/
def checkEnumAT (o : List (String × Json)) : List ZodIssue :=
  match getField o "analysisType" with
  | none => [⟨["analysisType"], "Required"⟩]
  | some (.str s) =>
      if s = "basic" ∨ s = "detailed" then []
      else [⟨["analysisType"],
        "Invalid enum value. Expected basic | detailed, received " ++ s⟩]
  | some v => [⟨["analysisType"], "Expected basic | detailed, received " ++ typeName v⟩]

/-- One image entry of the `images` array: `z.object({name: z.string(),
data: z.string()})`. -/
def checkImageElem (i : ℕ) : Json → List ZodIssue
  | .obj f =>
    (match getField f "name" with
      | none => [⟨["images", toString i, "name"], "Required"⟩]
      | some (.str _) => []
      | some v => [⟨["images", toString i, "name"],
          "Expected string, received " ++ typeName v⟩]) ++
    (match getField f "data" with
      | none => [⟨["images", toString i, "data"], "Required"⟩]
      | some (.str _) => []
      | some v => [⟨["images", toString i, "data"],
          "Expected string, received " ++ typeName v⟩])
  | v => [⟨["images", toString i], "Expected object, received " ++ typeName v⟩]

/-- Issues of `images: z.array(...).optional().default([])`. -/
def checkImages (o : List (String × Json)) : List ZodIssue :=
  match getField o "images" with
  | none => []
  | some (.arr xs) => (xs.enum.map (fun p => checkImageElem p.1 p.2)).flatten
  | some v => [⟨["images"], "Expected array, received " ++ typeName v⟩]

/-- The string payload of a validated string field (only consulted on the
success path, where validation has already established the field is a
string). -/
def getStrD (o : List (String × Json)) (k : String) : String :=
  match getField o k with
  | some (.str s) => s
  | _ => ""

/-- The payload of a validated optional string field. -/
def getStrOpt (o : List (String × Json)) (k : String) : Option String :=
  match getField o k with
  | some (.str s) => some s
  | _ => none

/-- `analysisType: 'basic' | 'detailed'`. -/
inductive AnalysisType where
  | basic
  | detailed
deriving DecidableEq, Repr

def AnalysisType.toStr : AnalysisType → String
  | .basic => "basic"
  | .detailed => "detailed"

/-- The typed record produced by `AnalyzeDataSchema.parse`. -/
structure AnalyzeArgs where
  fileData : String
  fileName : String
  analysisType : AnalysisType
  outputDir : Option String
deriving DecidableEq, Repr

/-- All issues `AnalyzeDataSchema` reports on an argument object. -/
def analyzeIssues (o : List (String × Json)) : List ZodIssue :=
  checkStr o "fileData" true ++ checkStr o "fileName" true ++
    checkEnumAT o ++ checkStr o "outputDir" false

/-- `AnalyzeDataSchema.parse`. -/
def parseAnalyzeData : Json → Except (List ZodIssue) AnalyzeArgs
  | .obj o =>
    if analyzeIssues o = [] then
      .ok
        { fileData := getStrD o "fileData"
          fileName := getStrD o "fileName"
          analysisType := if getStrD o "analysisType" = "detailed" then .detailed else .basic
          outputDir := getStrOpt o "outputDir" }
    else .error (analyzeIssues o)
  | j => .error [⟨[], "Expected object, received " ++ typeName j⟩]

/-- An entry of the validated `images` array. -/
structure ImageSpec where
  name : String
  data : String
deriving DecidableEq, Repr

/-- The typed record produced by `SendEmailSchema.parse`; `toAddr` models
the `to` field (`to` is a reserved token in Lean). -/
structure SendEmailArgs where
  toAddr : String
  subjectPrompt : String
  text : String
  html : Option String
  images : List ImageSpec
deriving DecidableEq, Repr

/-- All issues `SendEmailSchema` reports on an argument object. -/
def sendEmailIssues (o : List (String × Json)) : List ZodIssue :=
  checkStr o "to" true ++ checkStr o "subjectPrompt" true ++ checkStr o "text" true ++
    checkStr o "html" false ++ checkImages o

/-- The validated payload of one image entry. -/
def imgOfJson : Json → ImageSpec
  | .obj f => { name := getStrD f "name", data := getStrD f "data" }
  | _ => { name := "", data := "" }

/-- The validated `images` value (`.default([])` fills a missing field). -/
def getImages (o : List (String × Json)) : List ImageSpec :=
  match getField o "images" with
  | some (.arr xs) => xs.map imgOfJson
  | _ => []

/-- `SendEmailSchema.parse`. -/
def parseSendEmail : Json → Except (List ZodIssue) SendEmailArgs
  | .obj o =>
    if sendEmailIssues o = [] then
      .ok
        { toAddr := getStrD o "to"
          subjectPrompt := getStrD o "subjectPrompt"
          text := getStrD o "text"
          html := getStrOpt o "html"
          images := getImages o }
    else .error (sendEmailIssues o)
  | j => .error [⟨[], "Expected object, received " ++ typeName j⟩]

/-- The typed record produced by `GenerateThinkingSchema.parse`. -/
structure GenThinkingArgs where
  prompt : String
  outputDir : Option String
deriving DecidableEq, Repr

/-- All issues `GenerateThinkingSchema` reports on an argument object. -/
def genThinkingIssues (o : List (String × Json)) : List ZodIssue :=
  checkStr o "prompt" true ++ checkStr o "outputDir" false

/-- `GenerateThinkingSchema.parse`. -/
def parseGenerateThinking : Json → Except (List ZodIssue) GenThinkingArgs
  | .obj o =>
    if genThinkingIssues o = [] then
      .ok { prompt := getStrD o "prompt", outputDir := getStrOpt o "outputDir" }
    else .error (genThinkingIssues o)
  | j => .error [⟨[], "Expected object, received " ++ typeName j⟩]

/-! ### Email subject generation (`send-email` handler)

The handler asks the model for a subject, cleans the answer with a chain of
regex substitutions, and if the result looks unusable makes exactly one
fallback model call (cleaning and truncating its answer).  The cleanup chain
is modelled character-list-wise, one function per substitution. -/

/-- `.replace(/\*\*|\*|__|_/g, '')` — every occurrence of the four markers
is an asterisk or underscore run fragment, so this removes exactly the
characters `*` and `_`. -/
def stripMarkers (l : List Char) : List Char :=
  l.filter (fun c => ¬(c = '*' ∨ c = '_'))

/-- Case-insensitive prefix test against a lowercase word. -/
def startsWithCI (l : List Char) (w : List Char) : Bool :=
  (l.take w.length).map Char.toLower = w

/-- The `(:|\s-)\s*` part of the label regex: a colon, or one whitespace
character followed by a dash; then any whitespace is consumed. -/
def stripLabelSep : List Char → Option (List Char)
  | ':' :: r => some (r.dropWhile isWsChar)
  | c :: '-' :: r => if isWsChar c then some (r.dropWhile isWsChar) else none
  | _ => none

/-- Try one alternative of `^(subject|subject line|email subject|title)`. -/
def stripLabelOne (l : List Char) (w : String) : Option (List Char) :=
  if startsWithCI l w.data then stripLabelSep (l.drop w.data.length) else none

/-- `.replace(/^(subject|subject line|email subject|title)(:|\s-)\s*/i, '')`
— the regex engine tries the alternatives left to right, backtracking to
the next alternative when the separator fails to match. -/
def stripLabelPhrase (l : List Char) : List Char :=
  match stripLabelOne l "subject" with
  | some r => r
  | none =>
    match stripLabelOne l "subject line" with
    | some r => r
    | none =>
      match stripLabelOne l "email subject" with
      | some r => r
      | none =>
        match stripLabelOne l "title" with
        | some r => r
        | none => l

/-- A single or double quote character. -/
def isQuoteChar (c : Char) : Bool := c = '"' ∨ c = '\x27'

/-- `.replace(/^["'](.+)["']$/, '$1')` — strip one pair of wrapping quotes;
`.` does not match a newline, so a subject with an inner newline is left
unchanged. -/
def stripWrapQuotes (l : List Char) : List Char :=
  match l with
  | [] => []
  | c :: rest =>
    match rest.getLast? with
    | none => l
    | some d =>
      if isQuoteChar c ∧ isQuoteChar d ∧ rest.dropLast ≠ [] ∧
          ¬(rest.dropLast).contains '\n' then
        rest.dropLast
      else l

/-- `.replace(/\n/g, ' ')`. -/
def replaceNl (l : List Char) : List Char :=
  l.map (fun c => if c = '\n' then ' ' else c)

/-- `.replace(/\s+/g, ' ')` — every maximal whitespace run becomes one
space. -/
def collapseWs : List Char → List Char
  | [] => []
  | c :: cs =>
    if isWsChar c then
      match cs with
      | [] => [' ']
      | d :: _ => if isWsChar d then collapseWs cs else ' ' :: collapseWs cs
    else c :: collapseWs cs

/-- The full cleanup chain applied to a generated subject, ending in
`.trim()`. -/
def cleanupSubject (l : List Char) : List Char :=
  trimChars (collapseWs (replaceNl (stripWrapQuotes (stripLabelPhrase (stripMarkers l)))))

/-- `String.prototype.includes` on character lists. -/
def includesL (l pat : List Char) : Bool :=
  l.tails.any (fun t => pat.isPrefixOf t)

/-- The condition that triggers the fallback model call:
`length > 70 || length < 10 || includes("Option") || includes("**")`. -/
def needsFallback (s : List Char) : Bool :=
  70 < s.length ∨ s.length < 10 ∨ includesL s "Option".data ∨ includesL s "**".data

/-- The final length check of the fallback path:
`if (length > 70) subject = subject.substring(0, 67) + '...'`. -/
def truncate70 (s : List Char) : List Char :=
  if 70 < s.length then s.take 67 ++ "...".data else s

/-- The subject computation as a function of the two possible model
responses, paired with the number of model calls consumed (the second
response is only requested when the first cleaned subject triggers the
fallback). -/
def computeSubject (r1 r2 : List Char) : List Char × ℕ :=
  let s1 := cleanupSubject r1
  if needsFallback s1 then (truncate70 (cleanupSubject r2), 2) else (s1, 1)

/-- The first (enhanced) subject prompt template. -/
def enhancedPromptOf (subjectPrompt : String) : String :=
  "Create a single, professional email subject line (maximum 50-60 characters) for: " ++
    subjectPrompt ++ ". \n        The subject should be direct, clear, and professional. \n        Do not include numbering, asterisks, or formatting characters. \n        Do not provide multiple options - just give me one perfect subject line.\n        Do not include phrases like \"Subject line:\" or \"Email subject:\" in your response."

/-- The fallback subject prompt template. -/
def fallbackPromptOf (subjectPrompt : String) : String :=
  "Create a brief, professional email subject line (30-50 characters only) about: " ++
    subjectPrompt ++ ". \n          Just return the subject line text alone with no formatting or explanation."

/-! ### Markdown-to-HTML conversion (`generate-thinking` handler)

The handler rewrites the model response with a chain of regex
substitutions.  The `^...$`/`gm` patterns act per line; the inline patterns
pair non-greedy delimiters, modelled by splitting on the delimiter and
tagging alternate chunks (an unmatched trailing delimiter is kept
verbatim, as the regex leaves it unmatched). -/

/-- Apply a per-line rewrite (a `gm`-anchored substitution). -/
def convLines (f : String → String) (s : String) : String :=
  String.intercalate "\n" ((s.splitOn "\n").map f)

/-- The four header substitutions `^#{1..4} (.*?)$`. -/
def hdrLine (line : String) : String :=
  if line.startsWith "# " then "<h1>" ++ line.drop 2 ++ "</h1>"
  else if line.startsWith "## " then "<h2>" ++ line.drop 3 ++ "</h2>"
  else if line.startsWith "### " then "<h3>" ++ line.drop 4 ++ "</h3>"
  else if line.startsWith "#### " then "<h4>" ++ line.drop 5 ++ "</h4>"
  else line

/-- `^- (.*?)$` → `<li>$1</li>`. -/
def listLine (line : String) : String :=
  if line.startsWith "- " then "<li>" ++ line.drop 2 ++ "</li>" else line

/-- `^([^<\s].*?)$` → `<p>$1</p>`: a non-empty line whose first character
is neither `<` nor whitespace becomes a paragraph. -/
def paraLine (line : String) : String :=
  match line.data with
  | [] => line
  | c :: _ => if c ≠ '<' ∧ ¬isWsChar c then "<p>" ++ line ++ "</p>" else line

/-- Tag alternate chunks between non-greedy delimiter pairs. -/
def pairTagAux (delim openT closeT : String) : List String → String
  | [] => ""
  | [x] => x
  | [x, y] => x ++ delim ++ y
  | x :: y :: z :: rest => x ++ openT ++ y ++ closeT ++ pairTagAux delim openT closeT (z :: rest)

/-- A global non-greedy pair substitution such as `/\*\*(.*?)\*\*/g`. -/
def pairTag (delim openT closeT s : String) : String :=
  pairTagAux delim openT closeT (s.splitOn delim)

/-- The markdown-like conversion chain of the `generate-thinking` handler
(headers, bold, italic, list items, code fences, paragraphs, then `<ul>`
wrapping with the adjacent-`</ul><ul>` merge; the bold/italic dots do not
cross lines, the code-fence substitution uses the `s` flag and does). -/
def mdToHtml (s : String) : String :=
  let s1 := convLines hdrLine s
  let s2 := convLines (pairTag "**" "<strong>" "</strong>") s1
  let s3 := convLines (pairTag "*" "<em>" "</em>") s2
  let s4 := convLines listLine s3
  let s5 := pairTag (String.mk ['\x60', '\x60', '\x60']) "<pre><code>" "</code></pre>" s4
  let s6 := convLines paraLine s5
  let s7 := ((s6.replace "<li>" "<ul><li>").replace "</li>" "</li></ul>")
  ((s7.replace "</ul>\n<ul>" "").replace "</ul><ul>" "")

/-- The styled wrapper of the `generate-thinking` response. -/
def styledThinkingHtml (prompt filePath htmlResponse : String) : String :=
  "\n<div style=\"font-family: Arial, sans-serif; max-width: 800px; margin: 0 auto; padding: 20px; line-height: 1.5; color: #333;\">\n  <div style=\"background-color: #f0f8ff; padding: 15px; border-radius: 8px; margin-bottom: 20px; border-left: 5px solid #4169e1;\">\n    <h2 style=\"margin-top: 0; color: #4169e1;\">Gemini Thinking Response</h2>\n    <p style=\"font-style: italic; color: #666;\">Generated based on prompt: \"" ++
    prompt ++
    "\"</p>\n  </div>\n\n  <div style=\"background-color: white; padding: 20px; border-radius: 8px; box-shadow: 0 2px 4px rgba(0,0,0,0.1);\">\n    " ++
    htmlResponse ++
    "\n  </div>\n  \n  <div style=\"background-color: #f5f5f5; padding: 10px; border-radius: 8px; margin-top: 20px; font-size: 0.9em; color: #666;\">\n    <p>Response saved to: " ++
    filePath ++ "</p>\n  </div>\n</div>"

/-! ### Email construction (`send-email` handler) -/

/-- The fixed head of the text-to-HTML template, up to the title. -/
def htmlTemplateHead : String :=
  "<!DOCTYPE html>\n<html lang=\"en\">\n<head>\n  <meta charset=\"UTF-8\">\n  <meta name=\"viewport\" content=\"width=device-width, initial-scale=1.0\">\n  <title>"

/-- The professional HTML body template used when only `text` was provided
(literal braces of the embedded CSS are written as `\x7b`/`\x7d`). -/
def htmlTemplateOf (generatedSubject text : String) : String :=
  htmlTemplateHead ++
    generatedSubject ++
    "</title>\n  <style>\n    body \x7b\n      font-family: Arial, sans-serif;\n      line-height: 1.6;\n      color: #333;\n      max-width: 650px;\n      margin: 0 auto;\n      padding: 20px;\n    \x7d\n    .header \x7b\n      border-bottom: 2px solid #4169E1;\n      padding-bottom: 10px;\n      margin-bottom: 20px;\n    \x7d\n    .header h1 \x7b\n      color: #4169E1;\n      font-size: 24px;\n      margin: 0;\n    \x7d\n    .content \x7b\n      padding: 15px 0;\n    \x7d\n    .footer \x7b\n      margin-top: 30px;\n      padding-top: 10px;\n      border-top: 1px solid #eee;\n      font-size: 12px;\n      color: #777;\n    \x7d\n    p \x7b\n      margin: 0 0 15px;\n    \x7d\n  </style>\n</head>\n<body>\n  <div class=\"header\">\n    <h1>" ++
    generatedSubject ++
    "</h1>\n  </div>\n  <div class=\"content\">\n    " ++
    String.join ((text.splitOn "\n").map (fun line => "<p>" ++ line ++ "</p>")) ++
    "\n  </div>\n  <div class=\"footer\">\n    <p>This email was sent using Gemini Email Subject Generator</p>\n  </div>\n</body>\n</html>"

/-- One prepared nodemailer attachment. -/
structure Attachment where
  filename : String
  content : String
  encoding : String
  cid : String
  contentType : String
deriving DecidableEq, Repr

/-- The split of a character list at the last occurrence of `sep` (the
greedy first group of the data-URL regex). -/
def lastSplitAt (sep l : List Char) : Option (List Char × List Char) :=
  ((List.range (l.length + 1)).reverse.find? (fun i => sep.isPrefixOf (l.drop i))).map
    (fun i => (l.take i, l.drop (i + sep.length)))

/-- `image.data.match(/^data:(.+);base64,(.+)$/)` — both groups are greedy
and non-empty, and `.` does not match a newline. -/
def parseDataUrl (s : String) : Option (String × String) :=
  let cs := s.data
  if ("data:".data).isPrefixOf cs ∧ ¬cs.contains '\n' then
    match lastSplitAt (";base64,".data) (cs.drop 5) with
    | some (t, b) =>
        if t ≠ [] ∧ b ≠ [] then some (String.mk t, String.mk b) else none
    | none => none
  else none

/-- `images.map((image, index) => ...).filter(attachment => attachment !==
null)` — images whose data URL does not match contribute no attachment. -/
def attachmentsOf (images : List ImageSpec) : List Attachment :=
  images.enum.filterMap (fun p =>
    match parseDataUrl p.2.data with
    | some (t, b64) =>
        some
          { filename := p.2.name
            content := b64
            encoding := "base64"
            cid := "image" ++ toString p.1
            contentType := t }
    | none => none)

/-- The options handed to `transporter.sendMail`; `fromAddr`/`toAddr` model
the `from`/`to` fields. -/
structure MailOptions where
  fromAddr : String
  toAddr : String
  subject : String
  text : String
  html : String
  attachments : List Attachment
deriving DecidableEq, Repr

/-- JavaScript truthiness of an optional string (`undefined` and `""` are
falsy). -/
def jsTruthyOpt : Option String → Bool
  | none => false
  | some s => s ≠ ""

/-- `let htmlContent = html; if (!htmlContent && text) htmlContent =
<template>`. -/
def htmlContentOf (subject : String) (p : SendEmailArgs) : Option String :=
  if ¬jsTruthyOpt p.html ∧ p.text ≠ "" then some (htmlTemplateOf subject p.text) else p.html

/-- The `mailOptions` record: `html: htmlContent || text`. -/
def mailOptionsOf (emailUser : String) (p : SendEmailArgs) (subject : String) : MailOptions :=
  { fromAddr := emailUser
    toAddr := p.toAddr
    subject := subject
    text := p.text
    html :=
      match htmlContentOf subject p with
      | some h => if h = "" then p.text else h
      | none => p.text
    attachments := attachmentsOf p.images }

/-- The success-response body of `send-email`. -/
def emailSuccessText (toAddr subject messageId : String) : String :=
  "<div style=\"font-family: Arial, sans-serif; padding: 20px; border-radius: 10px; border: 1px solid #e0e0e0; background-color: #f9f9f9; max-width: 600px; margin: 0 auto;\">\n  <div style=\"background-color: #4CAF50; color: white; padding: 10px 15px; border-radius: 5px; margin-bottom: 15px;\">\n    <h2 style=\"margin: 0; font-size: 18px;\">✅ Email Successfully Sent</h2>\n  </div>\n  \n  <div style=\"padding: 10px; background-color: white; border-radius: 5px; margin-bottom: 15px;\">\n    <p><strong>To:</strong> " ++
    toAddr ++
    "</p>\n    <p><strong>Subject:</strong> \"" ++
    subject ++
    "\"</p>\n    <p><strong>Message ID:</strong> " ++
    messageId ++
    "</p>\n  </div>\n  \n  <div style=\"background-color: #f0f0f0; padding: 10px; border-radius: 5px; border-left: 3px solid #4CAF50;\">\n    <p>The email has been delivered with your provided content.</p>\n    <p style=\"font-style: italic; color: #666;\">Note: This is just a confirmation message displayed here, not the actual email content.</p>\n  </div>\n</div>"

/-- The failure-response body of `send-email`, carrying the underlying
error message (`error instanceof Error ? error.message : String(error)`). -/
def emailFailureText (message : String) : String :=
  "<div style=\"font-family: Arial, sans-serif; padding: 20px; border-radius: 10px; border: 1px solid #e0e0e0; background-color: #fff0f0; max-width: 600px; margin: 0 auto;\">\n  <div style=\"background-color: #f44336; color: white; padding: 10px 15px; border-radius: 5px; margin-bottom: 15px;\">\n    <h2 style=\"margin: 0; font-size: 18px;\">❌ Email Sending Failed</h2>\n  </div>\n  \n  <div style=\"padding: 15px; background-color: white; border-radius: 5px;\">\n    <p><strong>Error:</strong> " ++
    message ++
    "</p>\n    <p>Please check your email credentials and try again.</p>\n  </div>\n</div>"

/-! ### Analyze-data report rendering

JavaScript renders numbers in decimal (`JSON.stringify`, `toFixed(2)`);
the rational embedding renders them by `ToString ℚ` and renders the
irrational `std` by its radicand.  No claim depends on the rendered
digits. -/

/-- `JSON.stringify(statistics.numericStats, null, 2)`, modulo number
formatting and pretty-printing whitespace. -/
def numericStatsJson (ns : List (String × NumericStats)) : String :=
  "\x7b" ++
    String.intercalate ", " (ns.map (fun p =>
      "\"" ++ p.1 ++ "\": \x7b\"mean\": " ++ toString p.2.mean ++
        ", \"median\": " ++ toString p.2.median ++
        ", \"std\": sqrt(" ++ toString p.2.variance ++ ")" ++
        ", \"min\": " ++ toString p.2.min ++
        ", \"max\": " ++ toString p.2.max ++ "\x7d")) ++
    "\x7d"

/-- `JSON.stringify(statistics, null, 2)`, modulo the same formatting. -/
def statsJson (st : Statistics) : String :=
  "\x7b\"rowCount\": " ++ toString st.rowCount ++
    ", \"columnCount\": " ++ toString st.columnCount ++
    ", \"numericStats\": " ++ numericStatsJson st.numericStats ++
    ", \"categoricalStats\": \x7b\x7d\x7d"

/-- The analysis prompt sent to the model. -/
def analysisPromptOf (analysisType : AnalysisType) (rowCount colCount : ℕ)
    (statsStr : String) : String :=
  "Analyze this dataset with " ++ toString rowCount ++ " rows and " ++
    toString colCount ++
    " columns.\n        \n        Basic statistics:\n        " ++ statsStr ++
    "\n        \n        Please provide:\n        1. Key insights from the data\n        2. Patterns and trends\n        3. Potential anomalies\n        4. Recommendations for further analysis\n        \n        " ++
    (if analysisType = AnalysisType.detailed then
      "Please provide a detailed analysis with specific examples and correlations."
    else "Keep the analysis concise and focused on the most important findings.")

/-- A JSON array of the bin labels `bins.map(b => b.toFixed(2))`. -/
def binLabelsJson (bins : List ℚ) : String :=
  "[" ++ String.intercalate "," (bins.map (fun b => "\"" ++ toString b ++ "\"")) ++ "]"

/-- `JSON.stringify(counts)`. -/
def countsJson (counts : List ℕ) : String :=
  "[" ++ String.intercalate "," (counts.map toString) ++ "]"

/-- The per-column Chart.js histogram page (braces escaped). -/
def chartHtmlOf (col : String) (bins : List ℚ) (counts : List ℕ) : String :=
  "\n<!DOCTYPE html>\n<html>\n<head>\n  <title>Distribution of " ++ col ++
    "</title>\n  <script src=\"https://cdn.jsdelivr.net/npm/chart.js\"></script>\n  <style>\n    .chart-container \x7b\n      width: 800px;\n      height: 400px;\n      margin: 20px auto;\n    \x7d\n  </style>\n</head>\n<body>\n  <div class=\"chart-container\">\n    <canvas id=\"chart\"></canvas>\n  </div>\n  <script>\n    new Chart(document.getElementById(\x27chart\x27), \x7b\n      type: \x27bar\x27,\n      data: \x7b\n        labels: " ++
    binLabelsJson bins ++
    ",\n        datasets: [\x7b\n          label: \x27" ++ col ++
    " Distribution\x27,\n          data: " ++
    countsJson counts ++
    ",\n          backgroundColor: \x27rgba(54, 162, 235, 0.5)\x27,\n          borderColor: \x27rgba(54, 162, 235, 1)\x27,\n          borderWidth: 1\n        \x7d]\n      \x7d,\n      options: \x7b\n        responsive: true,\n        scales: \x7b\n          x: \x7b\n            title: \x7b\n              display: true,\n              text: \x27" ++
    col ++
    "\x27\n            \x7d\n          \x7d,\n          y: \x7b\n            title: \x7b\n              display: true,\n              text: \x27Count\x27\n            \x7d,\n            beginAtZero: true\n          \x7d\n        \x7d,\n        plugins: \x7b\n          title: \x7b\n            display: true,\n            text: \x27Distribution of " ++
    col ++
    "\x27,\n            font: \x7b\n              size: 16\n            \x7d\n          \x7d\n        \x7d\n      \x7d\n    \x7d);\n  </script>\n</body>\n</html>"

/-- The consolidated HTML report (braces escaped); `plotRels` are the
report-relative plot paths `path.relative(saveDir, plot)`. -/
def reportHtmlOf (st : Statistics) (analysisText : String) (plotRels : List String) : String :=
  "\n<!DOCTYPE html>\n<html>\n<head>\n  <title>Data Analysis Report</title>\n  <style>\n    body \x7b font-family: Arial, sans-serif; margin: 20px; \x7d\n    .container \x7b max-width: 1200px; margin: 0 auto; \x7d\n    .stats \x7b background: #f5f5f5; padding: 20px; border-radius: 5px; \x7d\n    .plots \x7b display: grid; grid-template-columns: repeat(auto-fit, minmax(400px, 1fr)); gap: 20px; \x7d\n    .plot \x7b border: 1px solid #ddd; padding: 10px; \x7d\n  </style>\n</head>\n<body>\n  <div class=\"container\">\n    <h1>Data Analysis Report</h1>\n    <h2>Dataset Information</h2>\n    <div class=\"stats\">\n      <p>Rows: " ++
    toString st.rowCount ++
    "</p>\n      <p>Columns: " ++
    toString st.columnCount ++
    "</p>\n      <h3>Numeric Statistics</h3>\n      <pre>" ++
    numericStatsJson st.numericStats ++
    "</pre>\n    </div>\n    \n    <h2>AI Analysis</h2>\n    <div class=\"analysis\">\n      " ++
    String.join ((analysisText.splitOn "\n").map (fun line => "<p>" ++ line ++ "</p>")) ++
    "\n    </div>\n    \n    <h2>Visualizations</h2>\n    <div class=\"plots\">\n      " ++
    String.join (plotRels.map (fun rel =>
      "\n        <div class=\"plot\">\n          <iframe src=\"" ++ rel ++
        "\" width=\"100%\" height=\"400px\"></iframe>\n        </div>\n      ")) ++
    "\n    </div>\n  </div>\n</body>\n</html>"

/-- The success-response body of `analyze-data`. -/
def analyzeSuccessText (fileName : String) (analysisType : AnalysisType)
    (st : Statistics) (reportPath analysisPath plotsDir : String) : String :=
  "<div style=\"font-family: Arial, sans-serif; padding: 20px; border-radius: 10px; border: 1px solid #e0e0e0; background-color: #f9f9f9;\">\n  <div style=\"background-color: #4CAF50; color: white; padding: 10px 15px; border-radius: 5px; margin-bottom: 15px;\">\n    <h2 style=\"margin: 0; font-size: 18px;\">✅ Data Analysis Complete</h2>\n  </div>\n  \n  <div style=\"padding: 15px; background-color: white; border-radius: 5px; margin-bottom: 15px;\">\n    <p><strong>File Analyzed:</strong> " ++
    fileName ++
    "</p>\n    <p><strong>Analysis Type:</strong> " ++
    analysisType.toStr ++
    "</p>\n    <p><strong>Rows Processed:</strong> " ++
    toString st.rowCount ++
    "</p>\n    <p><strong>Columns Analyzed:</strong> " ++
    toString st.columnCount ++
    "</p>\n  </div>\n  \n  <div style=\"background-color: #f0f0f0; padding: 15px; border-radius: 5px; margin-bottom: 15px;\">\n    <h3 style=\"margin-top: 0;\">Output Files:</h3>\n    <ul>\n      <p>📊 HTML Report: " ++
    reportPath ++
    "</p>\n      <p>📝 Analysis Text: " ++
    analysisPath ++
    "</p>\n      <p>📈 Generated Plots: " ++
    plotsDir ++
    "</p>\n    </ul>\n  </div>\n  \n  <div style=\"border-left: 3px solid #4CAF50; padding-left: 15px; margin-top: 15px;\">\n    <p>The analysis has been saved to the specified directory. Open the HTML report for an interactive view of the results.</p>\n  </div>\n</div>"

/-! ### The dispatcher and its environment

External collaborators (the generative model, the SMTP transport, the
tabular-parsing libraries, base64 decoding, the filesystem existence
check, the environment secrets, the process working directory and
`Date.now()`) are oracles supplied in an `Env`.  Each handler returns its
protocol outcome together with the ordered list of filesystem effects the
call performed before returning or throwing. -/

/-- `transporter.sendMail` resolution value (the part the handler uses). -/
structure SentInfo where
  messageId : String
deriving DecidableEq, Repr

/-- The oracle environment of one tool call. -/
structure Env where
  gen : String → Except String String
  send : MailOptions → Except String SentInfo
  decode64 : String → String
  parseTab : String → String → Except String (List DataRow)
  existsPath : String → Bool
  emailCreds : Option (String × String)
  cwd : String
  timestamp : ℕ

/-- The error kinds a tool call can terminate with at the protocol
boundary. -/
inductive ToolError where
  | validation (issues : List ZodIssue)
  | unknownTool (message : String)
  | config (message : String)
  | external (message : String)
  | parseFailure (message : String)
deriving DecidableEq, Repr

/-- A filesystem side effect of a call. -/
inductive FsEffect where
  | mkdir (path : String)
  | write (path : String) (content : String)
deriving DecidableEq, Repr

/-- A successful response envelope: `{content: [{type: "text", text}]}`
with the text payloads listed in order. -/
structure Response where
  content : List String
deriving DecidableEq, Repr

/-- The subject-generation pipeline of `send-email`, returning the final
subject and the number of model calls consumed. -/
def subjectOf (env : Env) (subjectPrompt : String) : Except String (String × ℕ) :=
  match env.gen (enhancedPromptOf subjectPrompt) with
  | .error m => .error m
  | .ok r1 =>
    let s1 := cleanupSubject r1.data
    if needsFallback s1 then
      match env.gen (fallbackPromptOf subjectPrompt) with
      | .error m => .error m
      | .ok r2 => .ok (String.mk (truncate70 (cleanupSubject r2.data)), 2)
    else .ok (String.mk s1, 1)

/-- The `generate-thinking` handler. -/
def genThinkingH (env : Env) (j : Json) : Except ToolError Response × List FsEffect :=
  match parseGenerateThinking j with
  | .error es => (.error (.validation es), [])
  | .ok a =>
    let saveDir :=
      match a.outputDir with
      | some d => d
      | none => env.cwd ++ "/output"
    let w0 := if env.existsPath saveDir then [] else [FsEffect.mkdir saveDir]
    match env.gen a.prompt with
    | .error m => (.error (.external m), w0)
    | .ok responseText =>
      let filePath := saveDir ++ "/gemini_thinking_" ++ toString env.timestamp ++ ".txt"
      (.ok ⟨[styledThinkingHtml a.prompt filePath (mdToHtml responseText)]⟩,
        w0 ++ [FsEffect.write filePath responseText])

/-- The `send-email` handler. -/
def sendEmailH (env : Env) (j : Json) : Except ToolError Response × List FsEffect :=
  match parseSendEmail j with
  | .error es => (.error (.validation es), [])
  | .ok p =>
    match subjectOf env p.subjectPrompt with
    | .error m => (.error (.external m), [])
    | .ok (subject, _) =>
      match env.emailCreds with
      | none =>
        (.error (.config
          "Email credentials (NODEMAILER_EMAIL and NODEMAILER_PASSWORD) are not set in environment variables"), [])
      | some (emailUser, _) =>
        match env.send (mailOptionsOf emailUser p subject) with
        | .ok info => (.ok ⟨[emailSuccessText p.toAddr subject info.messageId]⟩, [])
        | .error m => (.ok ⟨[emailFailureText m]⟩, [])

/-- `customOutputDir ? path.resolve(customOutputDir) : path.join(outputDir,
'analysis')` (`path.resolve` is modelled as the identity on the supplied
directory string). -/
def analyzeSaveDir (env : Env) (a : AnalyzeArgs) : String :=
  match a.outputDir with
  | some d => d
  | none => env.cwd ++ "/output/analysis"

/-- The `analyze-data` handler: decode and persist the upload, parse it,
compute statistics, write one histogram page per numeric column, consult
the model, then write the analysis text and the consolidated report. -/
def analyzeDataH (env : Env) (j : Json) : Except ToolError Response × List FsEffect :=
  match parseAnalyzeData j with
  | .error es => (.error (.validation es), [])
  | .ok a =>
    let saveDir := analyzeSaveDir env a
    let w0 := if env.existsPath saveDir then [] else [FsEffect.mkdir saveDir]
    let buffer := env.decode64 a.fileData
    let tempFilePath := saveDir ++ "/" ++ a.fileName
    let w1 := w0 ++ [FsEffect.write tempFilePath buffer]
    match env.parseTab buffer a.fileName with
    | .error m => (.error (.parseFailure m), w1)
    | .ok data =>
      match data with
      | [] =>
        (.error (.parseFailure "Cannot convert undefined or null to object"), w1)
      | r0 :: rest =>
        let stats := statsOf r0 (r0 :: rest)
        let plotsDir := saveDir ++ "/plots"
        let w2 := w1 ++ (if env.existsPath plotsDir then [] else [FsEffect.mkdir plotsDir])
        let plotNames := (numericColumns r0).map
          (fun col => col ++ "_histogram_" ++ toString env.timestamp ++ ".html")
        let plotWrites := (numericColumns r0).map
          (fun col =>
            FsEffect.write (plotsDir ++ "/" ++ col ++ "_histogram_" ++ toString env.timestamp ++ ".html")
              (chartHtmlOf col (histBins (colValues (r0 :: rest) col))
                (histCounts (colValues (r0 :: rest) col))))
        let w3 := w2 ++ plotWrites
        match env.gen (analysisPromptOf a.analysisType (r0 :: rest).length
            (rowKeys r0).length (statsJson stats)) with
        | .error m => (.error (.external m), w3)
        | .ok analysisText =>
          let analysisPath := saveDir ++ "/analysis_" ++ toString env.timestamp ++ ".txt"
          let reportPath := saveDir ++ "/report_" ++ toString env.timestamp ++ ".html"
          (.ok ⟨[analyzeSuccessText a.fileName a.analysisType stats reportPath analysisPath plotsDir]⟩,
            w3 ++ [FsEffect.write analysisPath analysisText,
              FsEffect.write reportPath
                (reportHtmlOf stats analysisText (plotNames.map (fun n => "plots/" ++ n)))])

/-- The `CallToolRequestSchema` handler: exact-name dispatch over the three
registered tools; any other name throws `Unknown tool: <name>`. -/
def dispatch (env : Env) (name : String) (j : Json) : Except ToolError Response × List FsEffect :=
  if name = "generate-thinking" then genThinkingH env j
  else if name = "send-email" then sendEmailH env j
  else if name = "analyze-data" then analyzeDataH env j
  else (.error (.unknownTool ("Unknown tool: " ++ name)), [])

/-! ### Concrete fixtures used by witnesses and counterexamples -/

/-- A validating `send-email` argument object. -/
def j6 : Json :=
  .obj [("to", .str "a@b.c"), ("subjectPrompt", .str "meeting"), ("text", .str "hello")]

/-- The record `j6` validates to. -/
def p6 : SendEmailArgs :=
  { toAddr := "a@b.c", subjectPrompt := "meeting", text := "hello", html := none, images := [] }

/-- An environment whose model produces a well-formed subject and whose
SMTP transport always fails. -/
def sendFailEnv : Env :=
  { gen := fun _ => .ok "Team Meeting Notes For Next Week"
    send := fun _ => .error "connection refused"
    decode64 := fun s => s
    parseTab := fun _ _ => .error "unused"
    existsPath := fun _ => true
    emailCreds := some ("me@example.com", "secret")
    cwd := "."
    timestamp := 0 }

/-- A validating `analyze-data` argument object. -/
def j7 : Json :=
  .obj [("fileData", .str "QUJD"), ("fileName", .str "d.csv"), ("analysisType", .str "basic")]

/-- The record `j7` validates to. -/
def a7 : AnalyzeArgs :=
  { fileData := "QUJD", fileName := "d.csv", analysisType := .basic, outputDir := none }

/-- An environment whose tabular parser yields one numeric row and whose
generative model always fails. -/
def failGenEnv : Env :=
  { gen := fun _ => .error "model down"
    send := fun _ => .error "unused"
    decode64 := fun s => s
    parseTab := fun _ _ => .ok [[("a", Value.num 1)]]
    existsPath := fun _ => false
    emailCreds := none
    cwd := "."
    timestamp := 0 }

/-- An environment whose tabular parser yields a zero-row table. -/
def emptyTabEnv : Env :=
  { failGenEnv with parseTab := fun _ _ => .ok [] }

/-- A `send-email` argument object whose `text` is present but empty and
whose `html` is absent. -/
def j9 : Json :=
  .obj [("to", .str "a@b.c"), ("subjectPrompt", .str "x"), ("text", .str "")]

/-- The record `j9` validates to. -/
def p9 : SendEmailArgs :=
  { toAddr := "a@b.c", subjectPrompt := "x", text := "", html := none, images := [] }

/-- A `send-email` record with a non-empty text. -/
def p9n : SendEmailArgs :=
  { toAddr := "a@b.c", subjectPrompt := "x", text := "hi", html := none, images := [] }

/-! ### Helper lemmas about folds, min and max -/

theorem foldl_add_eq_sum (f : ℚ → ℚ) (l : List ℚ) (c : ℚ) :
    l.foldl (fun a b => a + f b) c = c + (l.map f).sum := by
  induction l generalizing c with
  | nil => simp
  | cons x xs ih => simp [List.foldl_cons, ih, add_assoc]

theorem foldl_min_le (x : ℚ) (xs : List ℚ) : ∀ v ∈ x :: xs, xs.foldl min x ≤ v := by
  induction xs generalizing x with
  | nil =>
    intro v hv
    rw [List.mem_cons] at hv
    rcases hv with rfl | hv
    · exact le_refl _
    · simp at hv
  | cons y ys ih =>
    intro v hv
    rw [List.foldl_cons]
    rw [List.mem_cons, List.mem_cons] at hv
    rcases hv with hv | hv | hv
    · rw [hv]
      exact le_trans (ih (min x y) (min x y) (List.mem_cons_self _ _)) (min_le_left _ _)
    · rw [hv]
      exact le_trans (ih (min x y) (min x y) (List.mem_cons_self _ _)) (min_le_right _ _)
    · exact ih (min x y) v (List.mem_cons.2 (Or.inr hv))

theorem foldl_min_mem (x : ℚ) (xs : List ℚ) : xs.foldl min x ∈ x :: xs := by
  induction xs generalizing x with
  | nil => simp
  | cons y ys ih =>
    rw [List.foldl_cons]
    rcases List.mem_cons.1 (ih (min x y)) with h | h
    · rw [h]
      rcases min_choice x y with he | he <;> rw [he] <;> simp
    · exact List.mem_cons.2 (Or.inr (List.mem_cons.2 (Or.inr h)))

theorem foldl_max_ge (x : ℚ) (xs : List ℚ) : ∀ v ∈ x :: xs, v ≤ xs.foldl max x := by
  induction xs generalizing x with
  | nil =>
    intro v hv
    rw [List.mem_cons] at hv
    rcases hv with rfl | hv
    · exact le_refl _
    · simp at hv
  | cons y ys ih =>
    intro v hv
    rw [List.foldl_cons]
    rw [List.mem_cons, List.mem_cons] at hv
    rcases hv with hv | hv | hv
    · rw [hv]
      exact le_trans (le_max_left _ _) (ih (max x y) (max x y) (List.mem_cons_self _ _))
    · rw [hv]
      exact le_trans (le_max_right _ _) (ih (max x y) (max x y) (List.mem_cons_self _ _))
    · exact ih (max x y) v (List.mem_cons.2 (Or.inr hv))

theorem foldl_max_mem (x : ℚ) (xs : List ℚ) : xs.foldl max x ∈ x :: xs := by
  induction xs generalizing x with
  | nil => simp
  | cons y ys ih =>
    rw [List.foldl_cons]
    rcases List.mem_cons.1 (ih (max x y)) with h | h
    · rw [h]
      rcases max_choice x y with he | he <;> rw [he] <;> simp
    · exact List.mem_cons.2 (Or.inr (List.mem_cons.2 (Or.inr h)))

theorem jsMin_spec (V : List ℚ) (h : V ≠ []) : jsMin V ∈ V ∧ ∀ v ∈ V, jsMin V ≤ v := by
  match V with
  | [] => exact absurd rfl h
  | x :: xs => exact ⟨foldl_min_mem x xs, foldl_min_le x xs⟩

theorem jsMax_spec (V : List ℚ) (h : V ≠ []) : jsMax V ∈ V ∧ ∀ v ∈ V, v ≤ jsMax V := by
  match V with
  | [] => exact absurd rfl h
  | x :: xs => exact ⟨foldl_max_mem x xs, foldl_max_ge x xs⟩

theorem foldl_add_zero (l : List ℚ) : l.foldl (· + ·) 0 = l.sum := by
  have h := foldl_add_eq_sum id l 0
  simpa using h

theorem jsMean_eq (V : List ℚ) : jsMean V = V.sum / (V.length : ℚ) := by
  rw [jsMean, foldl_add_zero]

theorem jsVariance_eq (V : List ℚ) :
    jsVariance V =
      ((V.map (fun v => (v - V.sum / (V.length : ℚ)) ^ 2)).sum) / (V.length : ℚ) := by
  rw [jsVariance, foldl_add_eq_sum (fun b => (b - jsMean V) ^ 2) V 0, zero_add, jsMean_eq]

theorem jsSorted_sorted (V : List ℚ) : (jsSorted V).Sorted (· ≤ ·) :=
  List.sorted_insertionSort _ V

theorem jsSorted_perm (V : List ℚ) : (jsSorted V).Perm V :=
  List.perm_insertionSort _ V

theorem jsSorted_eq_of_sorted_perm (V S : List ℚ) (hp : S.Perm V)
    (hs : S.Sorted (· ≤ ·)) : jsSorted V = S :=
  List.eq_of_perm_of_sorted ((jsSorted_perm V).trans hp.symm) (jsSorted_sorted V) hs

theorem jsMedian_eq (V S : List ℚ) (hp : S.Perm V) (hs : S.Sorted (· ≤ ·)) :
    jsMedian V =
      if V.length % 2 = 0 then
        (S.getD (V.length / 2 - 1) 0 + S.getD (V.length / 2) 0) / 2
      else S.getD (V.length / 2) 0 := by
  rw [jsMedian, jsSorted_eq_of_sorted_perm V S hp hs, hp.length_eq]

theorem summarize_numericStats_mem (r0 : DataRow) (rest : List DataRow)
    (stats : Statistics) (col : String) (s : NumericStats)
    (hsum : summarize (r0 :: rest) = some stats)
    (hmem : (col, s) ∈ stats.numericStats) :
    s = columnStats (colValues (r0 :: rest) col) ∧ col ∈ numericColumns r0 := by
  rw [summarize, Option.some.injEq] at hsum
  subst hsum
  simp only [statsOf, List.mem_map] at hmem
  obtain ⟨c, hc, heq⟩ := hmem
  obtain ⟨h1, h2⟩ := Prod.mk.injEq .. ▸ heq
  subst h1
  exact ⟨h2.symm, hc⟩

/-- C1: For every numeric column whose filtered value sequence V is
non-empty, summarize returns mean = sum(V)/|V|, median = the average of the
two middle elements of V sorted ascending when |V| is even and the middle
element (0-indexed floor(n/2)) when |V| is odd, and std = sqrt of the
population variance sum((v - mean)^2)/|V|; in particular on the table
`[{a:1,b:"x"},{a:2,b:"y"},{a:3,b:"z"}]` column `a` yields mean=2, median=2,
std=sqrt(2/3), min=1, max=3, and column `b` is absent from numericStats. -/
theorem claim_C1_summary_statistics :
    (∀ (r0 : DataRow) (rest : List DataRow) (stats : Statistics) (col : String)
        (s : NumericStats) (V S : List ℚ),
        summarize (r0 :: rest) = some stats →
        (col, s) ∈ stats.numericStats →
        V = colValues (r0 :: rest) col →
        V ≠ [] →
        S.Perm V →
        S.Sorted (· ≤ ·) →
        s.mean = V.sum / (V.length : ℚ) ∧
        s.median = (if V.length % 2 = 0 then
            (S.getD (V.length / 2 - 1) 0 + S.getD (V.length / 2) 0) / 2
          else S.getD (V.length / 2) 0) ∧
        s.std = Real.sqrt
          (((V.map (fun v => (v - V.sum / (V.length : ℚ)) ^ 2)).sum / (V.length : ℚ) : ℚ)) ∧
        (s.min ∈ V ∧ ∀ v ∈ V, s.min ≤ v) ∧
        (s.max ∈ V ∧ ∀ v ∈ V, v ≤ s.max)) ∧
    (∃ stats, summarize exampleTable = some stats ∧
      (∃ s, ("a", s) ∈ stats.numericStats ∧ s.mean = 2 ∧ s.median = 2 ∧
        s.std = Real.sqrt (2 / 3) ∧ s.min = 1 ∧ s.max = 3) ∧
      "b" ∉ stats.numericStats.map Prod.fst) := by
  constructor
  · intro r0 rest stats col s V S hsum hmem hV hne hperm hsorted
    obtain ⟨hs, -⟩ := summarize_numericStats_mem r0 rest stats col s hsum hmem
    subst hV
    subst hs
    refine ⟨jsMean_eq _, ?_, ?_, ?_, ?_⟩
    · exact jsMedian_eq _ S hperm hsorted
    · show Real.sqrt ((jsVariance (colValues (r0 :: rest) col) : ℚ) : ℝ) = _
      rw [jsVariance_eq]
    · exact jsMin_spec _ hne
    · exact jsMax_spec _ hne
  · have hcol : colValues exampleTable "a" = [(1 : ℚ), 2, 3] := rfl
    have hnc : numericColumns exRow0 = ["a"] := rfl
    refine ⟨_, rfl, ⟨columnStats (colValues exampleTable "a"), ?_, ?_, ?_, ?_, ?_, ?_⟩, ?_⟩
    · simp [statsOf, hnc]
    · show jsMean (colValues exampleTable "a") = 2
      rw [hcol]
      norm_num [jsMean]
    · show jsMedian (colValues exampleTable "a") = 2
      rw [hcol]
      norm_num [jsMedian, jsSorted, List.insertionSort, List.orderedInsert, List.getD]
    · show Real.sqrt ((jsVariance (colValues exampleTable "a") : ℚ) : ℝ) = Real.sqrt (2 / 3)
      have hv : jsVariance (colValues exampleTable "a") = 2 / 3 := by
        rw [hcol]
        norm_num [jsVariance, jsMean]
      rw [hv]
      norm_num
    · show jsMin (colValues exampleTable "a") = 1
      rw [hcol]
      norm_num [jsMin, min_def]
    · show jsMax (colValues exampleTable "a") = 3
      rw [hcol]
      norm_num [jsMax, max_def]
    · simp [statsOf, hnc]

/-- Witness for C1: the universally quantified part applied to the example
table, its numeric column `a`, and the sorted sequence `[1,2,3]`. -/
theorem claim_C1_summary_statistics_witness :
    (columnStats (colValues (exRow0 :: [exRow1, exRow2]) "a")).mean =
        ([(1 : ℚ), 2, 3]).sum / (([(1 : ℚ), 2, 3]).length : ℚ) ∧
    (columnStats (colValues (exRow0 :: [exRow1, exRow2]) "a")).median =
        (if ([(1 : ℚ), 2, 3]).length % 2 = 0 then
          (([(1 : ℚ), 2, 3]).getD (([(1 : ℚ), 2, 3]).length / 2 - 1) 0 +
            ([(1 : ℚ), 2, 3]).getD (([(1 : ℚ), 2, 3]).length / 2) 0) / 2
        else ([(1 : ℚ), 2, 3]).getD (([(1 : ℚ), 2, 3]).length / 2) 0) ∧
    (columnStats (colValues (exRow0 :: [exRow1, exRow2]) "a")).std = Real.sqrt
        (((([(1 : ℚ), 2, 3]).map
            (fun v => (v - ([(1 : ℚ), 2, 3]).sum / (([(1 : ℚ), 2, 3]).length : ℚ)) ^ 2)).sum /
          (([(1 : ℚ), 2, 3]).length : ℚ) : ℚ)) ∧
    ((columnStats (colValues (exRow0 :: [exRow1, exRow2]) "a")).min ∈ [(1 : ℚ), 2, 3] ∧
      ∀ v ∈ [(1 : ℚ), 2, 3], (columnStats (colValues (exRow0 :: [exRow1, exRow2]) "a")).min ≤ v) ∧
    ((columnStats (colValues (exRow0 :: [exRow1, exRow2]) "a")).max ∈ [(1 : ℚ), 2, 3] ∧
      ∀ v ∈ [(1 : ℚ), 2, 3], v ≤ (columnStats (colValues (exRow0 :: [exRow1, exRow2]) "a")).max) :=
  claim_C1_summary_statistics.1 exRow0 [exRow1, exRow2] _ "a" _ [(1 : ℚ), 2, 3] [(1 : ℚ), 2, 3]
    rfl (by simp [summarize, statsOf, numericColumns, exRow0, rowKeys, rowGet, isNumValue])
    (by rfl) (by decide) (by decide) (by decide)

/-- C2: a column is treated as numeric iff the first row's value for it is
of numeric type, and for a numeric column every row value whose numeric
coercion fails contributes no value to the aggregated sequence (it is
filtered out, not counted as zero). -/
theorem claim_C2_numeric_detection_and_filtering :
    (∀ (r0 : DataRow) (col : String),
        col ∈ numericColumns r0 ↔
          col ∈ rowKeys r0 ∧ isNumValue (rowGet r0 col) = true) ∧
    (∀ (col : String) (pre post : List DataRow) (row : DataRow),
        toNumber (rowGet row col) = none →
        colValues (pre ++ row :: post) col = colValues (pre ++ post) col) := by
  constructor
  · intro r0 col
    rw [numericColumns, List.mem_filter]
  · intro col pre post row hfail
    rw [colValues, colValues, List.filterMap_append, List.filterMap_append,
      List.filterMap_cons, hfail]

/-- Witness for C2: a row whose `a` cell is the non-numeric string `"oops"`
contributes no value to column `a`'s aggregated sequence. -/
theorem claim_C2_numeric_detection_and_filtering_witness :
    colValues ([exRow0] ++ [("a", Value.str "oops")] :: [exRow2]) "a" =
      colValues ([exRow0] ++ [exRow2]) "a" :=
  claim_C2_numeric_detection_and_filtering.2 "a" [exRow0] [exRow2]
    [("a", Value.str "oops")] (by rfl)

/-- C3: For every non-degenerate numeric value sequence V (binWidth > 0),
the histogram bin index assigned to the maximum value of V equals
binCount - 1, where binCount = min(20, floor(sqrt(|V|))) and a value v is
assigned bin min(binCount-1, floor((v-min)/binWidth)). -/
theorem claim_C3_histogram_max_bin (V : List ℚ) (h : 0 < binWidth V) :
    binIndexOf V (jsMax V) = (binCount V : ℤ) - 1 := by
  have hbc : (binCount V : ℚ) ≠ 0 := by
    intro h0
    rw [binWidth, h0, div_zero] at h
    exact lt_irrefl 0 h
  have hdiff : jsMax V - jsMin V ≠ 0 := by
    intro h0
    rw [binWidth, h0, zero_div] at h
    exact lt_irrefl 0 h
  have hquot : (jsMax V - jsMin V) / binWidth V = (binCount V : ℚ) := by
    rw [binWidth]
    field_simp
  rw [binIndexOf, hquot, Int.floor_natCast]
  exact min_eq_left (by linarith)

/-- Witness for C3: on `V = [1,2,3,4]` the bin width is `3/2 > 0` and the
maximum value `4` is assigned the last bin, index `binCount - 1 = 1`. -/
theorem claim_C3_histogram_max_bin_witness :
    0 < binWidth [(1 : ℚ), 2, 3, 4] ∧
      binIndexOf [(1 : ℚ), 2, 3, 4] (jsMax [(1 : ℚ), 2, 3, 4]) =
        (binCount [(1 : ℚ), 2, 3, 4] : ℤ) - 1 := by
  have hw : 0 < binWidth [(1 : ℚ), 2, 3, 4] := by
    norm_num [binWidth, binCount, jsMax, jsMin, max_def, min_def]
  exact ⟨hw, claim_C3_histogram_max_bin [(1 : ℚ), 2, 3, 4] hw⟩

/-! ### Validation lemmas -/

theorem parseAnalyzeData_error_of_mem (o : List (String × Json)) (iss : ZodIssue)
    (h : iss ∈ analyzeIssues o) :
    ∃ es, parseAnalyzeData (.obj o) = .error es ∧ iss ∈ es := by
  refine ⟨analyzeIssues o, ?_, h⟩
  rw [parseAnalyzeData, if_neg (List.ne_nil_of_mem h)]

theorem parseSendEmail_error_of_mem (o : List (String × Json)) (iss : ZodIssue)
    (h : iss ∈ sendEmailIssues o) :
    ∃ es, parseSendEmail (.obj o) = .error es ∧ iss ∈ es := by
  refine ⟨sendEmailIssues o, ?_, h⟩
  rw [parseSendEmail, if_neg (List.ne_nil_of_mem h)]

theorem parseGenerateThinking_error_of_mem (o : List (String × Json)) (iss : ZodIssue)
    (h : iss ∈ genThinkingIssues o) :
    ∃ es, parseGenerateThinking (.obj o) = .error es ∧ iss ∈ es := by
  refine ⟨genThinkingIssues o, ?_, h⟩
  rw [parseGenerateThinking, if_neg (List.ne_nil_of_mem h)]

theorem checkStr_missing (o : List (String × Json)) (k : String)
    (hget : getField o k = none) :
    checkStr o k true = [⟨[k], "Required"⟩] := by
  rw [checkStr, hget]
  rfl

theorem checkStr_type_issue (o : List (String × Json)) (k : String) (req : Bool) (v : Json)
    (hget : getField o k = some v) (hns : ∀ s, v ≠ .str s) :
    checkStr o k req = [⟨[k], "Expected string, received " ++ typeName v⟩] := by
  rw [checkStr, hget]
  cases v
  case str s => exact absurd rfl (hns s)
  all_goals rfl

theorem checkStr_nil_required (o : List (String × Json)) (k : String)
    (h : checkStr o k true = []) :
    getField o k = some (.str (getStrD o k)) := by
  rw [checkStr] at h
  cases hget : getField o k
  case none => rw [hget] at h; simp at h
  case some v =>
    rw [hget] at h
    cases v
    case str s => rw [getStrD, hget]
    all_goals simp at h

theorem checkEnumAT_nil (o : List (String × Json)) (h : checkEnumAT o = []) :
    getField o "analysisType" = some (.str (getStrD o "analysisType")) ∧
      (getStrD o "analysisType" = "basic" ∨ getStrD o "analysisType" = "detailed") := by
  rw [checkEnumAT] at h
  cases hget : getField o "analysisType"
  case none => rw [hget] at h; simp at h
  case some v =>
    rw [hget] at h
    cases v
    case str s =>
      have hg2 : getStrD o "analysisType" = s := by simp [getStrD, hget]
      simp only at h
      refine ⟨by rw [hg2], ?_⟩
      rw [hg2]
      by_cases hs : s = "basic" ∨ s = "detailed"
      · exact hs
      · rw [if_neg hs] at h; simp at h
    all_goals simp at h

/-- C4: For every tool call, any missing required field, wrong primitive
type for a recognized field, or an analysisType value outside the enum
{basic, detailed} causes validation to fail with a descriptive error
identifying the offending field, the failure propagates to the caller as a
tool-execution error, and no default value is silently substituted for the
invalid field. -/
theorem claim_C4_validation_failure_policy :
    (∀ (o : List (String × Json)) (k : String),
        k ∈ ["fileData", "fileName", "analysisType"] →
        getField o k = none →
        ∃ es, parseAnalyzeData (.obj o) = .error es ∧ ZodIssue.mk [k] "Required" ∈ es) ∧
    (∀ (o : List (String × Json)) (k : String) (v : Json),
        k ∈ ["fileData", "fileName", "outputDir"] →
        getField o k = some v →
        (∀ s, v ≠ .str s) →
        ∃ es, parseAnalyzeData (.obj o) = .error es ∧
          ZodIssue.mk [k] ("Expected string, received " ++ typeName v) ∈ es) ∧
    (∀ (o : List (String × Json)) (s : String),
        getField o "analysisType" = some (.str s) →
        s ≠ "basic" → s ≠ "detailed" →
        ∃ es, parseAnalyzeData (.obj o) = .error es ∧
          ZodIssue.mk ["analysisType"]
            ("Invalid enum value. Expected basic | detailed, received " ++ s) ∈ es) ∧
    (∀ (o : List (String × Json)) (v : Json),
        getField o "analysisType" = some v →
        (∀ s, v ≠ .str s) →
        ∃ es, parseAnalyzeData (.obj o) = .error es ∧
          ZodIssue.mk ["analysisType"]
            ("Expected basic | detailed, received " ++ typeName v) ∈ es) ∧
    (∀ (o : List (String × Json)) (k : String),
        k ∈ ["to", "subjectPrompt", "text"] →
        getField o k = none →
        ∃ es, parseSendEmail (.obj o) = .error es ∧ ZodIssue.mk [k] "Required" ∈ es) ∧
    (∀ (o : List (String × Json)) (k : String) (v : Json),
        k ∈ ["to", "subjectPrompt", "text", "html"] →
        getField o k = some v →
        (∀ s, v ≠ .str s) →
        ∃ es, parseSendEmail (.obj o) = .error es ∧
          ZodIssue.mk [k] ("Expected string, received " ++ typeName v) ∈ es) ∧
    (∀ (o : List (String × Json)) (v : Json),
        getField o "images" = some v →
        (∀ xs, v ≠ .arr xs) →
        ∃ es, parseSendEmail (.obj o) = .error es ∧
          ZodIssue.mk ["images"] ("Expected array, received " ++ typeName v) ∈ es) ∧
    (∀ (o : List (String × Json)) (k : String) (v : Json),
        k ∈ ["prompt", "outputDir"] →
        getField o k = some v →
        (∀ s, v ≠ .str s) →
        ∃ es, parseGenerateThinking (.obj o) = .error es ∧
          ZodIssue.mk [k] ("Expected string, received " ++ typeName v) ∈ es) ∧
    (∀ (o : List (String × Json)),
        getField o "prompt" = none →
        ∃ es, parseGenerateThinking (.obj o) = .error es ∧
          ZodIssue.mk ["prompt"] "Required" ∈ es) ∧
    (∀ (env : Env) (j : Json) (es : List ZodIssue),
        (parseAnalyzeData j = .error es →
          dispatch env "analyze-data" j = (.error (.validation es), [])) ∧
        (parseSendEmail j = .error es →
          dispatch env "send-email" j = (.error (.validation es), [])) ∧
        (parseGenerateThinking j = .error es →
          dispatch env "generate-thinking" j = (.error (.validation es), []))) ∧
    (∀ (j : Json) (a : AnalyzeArgs),
        parseAnalyzeData j = .ok a →
        ∃ o, j = .obj o ∧
          getField o "fileData" = some (.str a.fileData) ∧
          getField o "fileName" = some (.str a.fileName) ∧
          getField o "analysisType" = some (.str a.analysisType.toStr)) := by
  refine ⟨?_, ?_, ?_, ?_, ?_, ?_, ?_, ?_, ?_, ?_, ?_⟩
  · intro o k hk hget
    apply parseAnalyzeData_error_of_mem
    simp only [List.mem_cons, List.not_mem_nil, or_false] at hk
    rcases hk with h | h | h
    · subst h; simp [analyzeIssues, checkStr_missing o _ hget]
    · subst h; simp [analyzeIssues, checkStr_missing o _ hget]
    · subst h; simp [analyzeIssues, checkEnumAT, hget]
  · intro o k v hk hget hns
    apply parseAnalyzeData_error_of_mem
    simp only [List.mem_cons, List.not_mem_nil, or_false] at hk
    rcases hk with h | h | h
    · subst h; simp [analyzeIssues, checkStr_type_issue o _ true v hget hns]
    · subst h; simp [analyzeIssues, checkStr_type_issue o _ true v hget hns]
    · subst h; simp [analyzeIssues, checkStr_type_issue o _ false v hget hns]
  · intro o s hget hb hd
    apply parseAnalyzeData_error_of_mem
    have he : checkEnumAT o =
        [⟨["analysisType"], "Invalid enum value. Expected basic | detailed, received " ++ s⟩] := by
      simp only [checkEnumAT, hget]
      rw [if_neg]
      rintro (h | h)
      · exact hb h
      · exact hd h
    simp [analyzeIssues, he]
  · intro o v hget hns
    apply parseAnalyzeData_error_of_mem
    have he : checkEnumAT o =
        [⟨["analysisType"], "Expected basic | detailed, received " ++ typeName v⟩] := by
      rw [checkEnumAT, hget]
      cases v
      case str s => exact absurd rfl (hns s)
      all_goals rfl
    simp [analyzeIssues, he]
  · intro o k hk hget
    apply parseSendEmail_error_of_mem
    simp only [List.mem_cons, List.not_mem_nil, or_false] at hk
    rcases hk with h | h | h
    · subst h; simp [sendEmailIssues, checkStr_missing o _ hget]
    · subst h; simp [sendEmailIssues, checkStr_missing o _ hget]
    · subst h; simp [sendEmailIssues, checkStr_missing o _ hget]
  · intro o k v hk hget hns
    apply parseSendEmail_error_of_mem
    simp only [List.mem_cons, List.not_mem_nil, or_false] at hk
    rcases hk with h | h | h | h
    · subst h; simp [sendEmailIssues, checkStr_type_issue o _ true v hget hns]
    · subst h; simp [sendEmailIssues, checkStr_type_issue o _ true v hget hns]
    · subst h; simp [sendEmailIssues, checkStr_type_issue o _ true v hget hns]
    · subst h; simp [sendEmailIssues, checkStr_type_issue o _ false v hget hns]
  · intro o v hget hns
    apply parseSendEmail_error_of_mem
    have he : checkImages o = [⟨["images"], "Expected array, received " ++ typeName v⟩] := by
      rw [checkImages, hget]
      cases v
      case arr xs => exact absurd rfl (hns xs)
      all_goals rfl
    simp [sendEmailIssues, he]
  · intro o k v hk hget hns
    apply parseGenerateThinking_error_of_mem
    simp only [List.mem_cons, List.not_mem_nil, or_false] at hk
    rcases hk with h | h
    · subst h; simp [genThinkingIssues, checkStr_type_issue o _ true v hget hns]
    · subst h; simp [genThinkingIssues, checkStr_type_issue o _ false v hget hns]
  · intro o hget
    apply parseGenerateThinking_error_of_mem
    simp [genThinkingIssues, checkStr_missing o _ hget]
  · intro env j es
    refine ⟨?_, ?_, ?_⟩
    · intro hp
      rw [dispatch, if_neg (by decide), if_neg (by decide), if_pos rfl]
      simp [analyzeDataH, hp]
    · intro hp
      rw [dispatch, if_neg (by decide), if_pos rfl]
      simp [sendEmailH, hp]
    · intro hp
      rw [dispatch, if_pos rfl]
      simp [genThinkingH, hp]
  · intro j a hp
    cases j
    case obj o =>
      refine ⟨o, rfl, ?_⟩
      rw [parseAnalyzeData] at hp
      by_cases hiss : analyzeIssues o = []
      · rw [if_pos hiss] at hp
        rw [analyzeIssues] at hiss
        obtain ⟨h123, h4⟩ := List.append_eq_nil.1 hiss
        obtain ⟨h12, h3⟩ := List.append_eq_nil.1 h123
        obtain ⟨h1, h2⟩ := List.append_eq_nil.1 h12
        obtain ⟨hat, hor⟩ := checkEnumAT_nil o h3
        have ha := Except.ok.inj hp
        subst ha
        refine ⟨checkStr_nil_required o _ h1, checkStr_nil_required o _ h2, ?_⟩
        rcases hor with hs | hs
        · rw [hat, hs]
          simp [AnalysisType.toStr]
        · rw [hat, hs]
          simp [AnalysisType.toStr]
      · rw [if_neg hiss] at hp
        exact absurd hp (by simp)
    all_goals exact absurd hp (by simp [parseAnalyzeData])

/-- Witness for C4: the empty argument object is missing `fileData`, and an
out-of-enum `analysisType` yields a field-specific issue. -/
theorem claim_C4_validation_failure_policy_witness :
    (∃ es, parseAnalyzeData (.obj []) = .error es ∧
      ZodIssue.mk ["fileData"] "Required" ∈ es) ∧
    (∃ es,
      parseAnalyzeData (.obj [("fileData", .str "QUJD"), ("fileName", .str "d.csv"),
        ("analysisType", .str "wrong")]) = .error es ∧
      ZodIssue.mk ["analysisType"]
        ("Invalid enum value. Expected basic | detailed, received " ++ "wrong") ∈ es) :=
  ⟨claim_C4_validation_failure_policy.1 [] "fileData" (by simp) rfl,
    claim_C4_validation_failure_policy.2.2.1
      [("fileData", .str "QUJD"), ("fileName", .str "d.csv"), ("analysisType", .str "wrong")]
      "wrong" rfl (by decide) (by decide)⟩

/-! ### Dispatch and error-handling theorems -/

/-- C5: For every tool name other than generate-thinking, send-email, and
analyze-data, dispatch fails with an unknown-tool error and performs no
filesystem side effects (no file or directory is created or written during
that call). -/
theorem claim_C5_unknown_tool_no_effects (env : Env) (name : String) (j : Json)
    (h1 : name ≠ "generate-thinking") (h2 : name ≠ "send-email")
    (h3 : name ≠ "analyze-data") :
    dispatch env name j = (.error (.unknownTool ("Unknown tool: " ++ name)), []) := by
  rw [dispatch, if_neg h1, if_neg h2, if_neg h3]

/-- Witness for C5: calling the unregistered tool `delete-everything`. -/
theorem claim_C5_unknown_tool_no_effects_witness :
    dispatch sendFailEnv "delete-everything" Json.null =
      (.error (.unknownTool ("Unknown tool: " ++ "delete-everything")), []) :=
  claim_C5_unknown_tool_no_effects sendFailEnv "delete-everything" Json.null
    (by decide) (by decide) (by decide)

/-- C6: For every send-email call whose arguments validate and whose
subject generation succeeds, if the SMTP transport's send operation throws,
the error is caught and the handler returns a normal response envelope
whose content reports the failure and carries the underlying error message,
rather than propagating a protocol-level error. -/
theorem claim_C6_smtp_failure_caught (env : Env) (j : Json) (p : SendEmailArgs)
    (subject : String) (n : ℕ) (user pw m : String)
    (hp : parseSendEmail j = .ok p)
    (hsub : subjectOf env p.subjectPrompt = .ok (subject, n))
    (hcred : env.emailCreds = some (user, pw))
    (hsend : env.send (mailOptionsOf user p subject) = .error m) :
    dispatch env "send-email" j = (.ok ⟨[emailFailureText m]⟩, []) ∧
      ∃ pre post, emailFailureText m = pre ++ m ++ post := by
  constructor
  · rw [dispatch, if_neg (by decide), if_pos rfl]
    simp only [sendEmailH, hp, hsub, hcred, hsend]
  · exact ⟨_, _, rfl⟩

/-- Witness for C6: a concrete validating call against an environment whose
transport refuses the connection. -/
theorem claim_C6_smtp_failure_caught_witness :
    dispatch sendFailEnv "send-email" j6 =
      (.ok ⟨[emailFailureText "connection refused"]⟩, []) ∧
    ∃ pre post, emailFailureText "connection refused" =
      pre ++ "connection refused" ++ post :=
  claim_C6_smtp_failure_caught sendFailEnv j6 p6 "Team Meeting Notes For Next Week" 1
    "me@example.com" "secret" "connection refused" rfl rfl rfl rfl

/-- C7 (amended): when the generative-language call of analyze-data fails,
the call terminates as a protocol-level failure, but the files written
earlier in the call — at least the decoded copy of the upload — remain on
disk. -/
theorem claim_C7_generation_failure_keeps_files (env : Env) (j : Json) (a : AnalyzeArgs)
    (r0 : DataRow) (rest : List DataRow) (m : String)
    (hp : parseAnalyzeData j = .ok a)
    (hdata : env.parseTab (env.decode64 a.fileData) a.fileName = .ok (r0 :: rest))
    (hgen : ∀ prompt, env.gen prompt = .error m) :
    (dispatch env "analyze-data" j).1 = .error (.external m) ∧
      FsEffect.write (analyzeSaveDir env a ++ "/" ++ a.fileName) (env.decode64 a.fileData) ∈
        (dispatch env "analyze-data" j).2 := by
  have hd : dispatch env "analyze-data" j = analyzeDataH env j := by
    rw [dispatch, if_neg (by decide), if_neg (by decide), if_pos rfl]
  rw [hd]
  simp only [analyzeDataH, hp, hdata, hgen]
  constructor
  · trivial
  · simp

/-- Witness for C7 (amended): the concrete failing-generation call leaves
the decoded upload at `./output/analysis/d.csv`. -/
theorem claim_C7_generation_failure_keeps_files_witness :
    (dispatch failGenEnv "analyze-data" j7).1 = .error (.external "model down") ∧
      FsEffect.write (analyzeSaveDir failGenEnv a7 ++ "/" ++ a7.fileName)
          (failGenEnv.decode64 a7.fileData) ∈
        (dispatch failGenEnv "analyze-data" j7).2 :=
  claim_C7_generation_failure_keeps_files failGenEnv j7 a7 [("a", Value.num 1)] []
    "model down" rfl rfl (fun _ => rfl)

/-- Counterexample to C7 as stated: on a concrete call whose
generative-language request fails, the call does terminate as a
protocol-level failure, yet its filesystem effect list is non-empty — a
file produced by that call is left on disk. -/
theorem claim_C7_counterexample :
    (dispatch failGenEnv "analyze-data" j7).1 = .error (.external "model down") ∧
      (dispatch failGenEnv "analyze-data" j7).2 ≠ [] :=
  ⟨rfl, by decide⟩

/-- C8: For every analyze-data call whose decoded file parses to a table
with zero rows, the call fails with a parse error (column introspection on
`data[0]` being impossible), aborting the current call. -/
theorem claim_C8_empty_table_parse_error (env : Env) (j : Json) (a : AnalyzeArgs)
    (hp : parseAnalyzeData j = .ok a)
    (hdata : env.parseTab (env.decode64 a.fileData) a.fileName = .ok []) :
    (dispatch env "analyze-data" j).1 =
      .error (.parseFailure "Cannot convert undefined or null to object") := by
  have hd : dispatch env "analyze-data" j = analyzeDataH env j := by
    rw [dispatch, if_neg (by decide), if_neg (by decide), if_pos rfl]
  rw [hd]
  simp only [analyzeDataH, hp, hdata]

/-- Witness for C8: the concrete zero-row table. -/
theorem claim_C8_empty_table_parse_error_witness :
    (dispatch emptyTabEnv "analyze-data" j7).1 =
      .error (.parseFailure "Cannot convert undefined or null to object") :=
  claim_C8_empty_table_parse_error emptyTabEnv j7 a7 rfl rfl

/-! ### HTML-body and subject lemmas -/

theorem append_ne_empty_left (a b : String) (ha : a ≠ "") : a ++ b ≠ "" := by
  intro h
  apply ha
  have hd : (a ++ b).data = ("" : String).data := congrArg String.data h
  rw [String.data_append] at hd
  obtain ⟨h1, -⟩ := List.append_eq_nil.1 hd
  exact String.ext h1

theorem htmlTemplateHead_ne_empty : htmlTemplateHead ≠ "" := by decide

theorem htmlTemplateOf_ne_empty (s t : String) : htmlTemplateOf s t ≠ "" := by
  rw [htmlTemplateOf]
  exact append_ne_empty_left _ _ (append_ne_empty_left _ _ (append_ne_empty_left _ _
    (append_ne_empty_left _ _ (append_ne_empty_left _ _ (append_ne_empty_left _ _
      htmlTemplateHead_ne_empty)))))

/-- C9 (amended): for every send-email call that validates with a
*non-empty* text field and no html field, the message handed to the mail
transport has a non-empty html body derived from the supplied text via the
handler's HTML template. -/
theorem claim_C9_html_template_from_text (u subject : String) (p : SendEmailArgs)
    (hh : p.html = none) (ht : p.text ≠ "") :
    (mailOptionsOf u p subject).html = htmlTemplateOf subject p.text ∧
      (mailOptionsOf u p subject).html ≠ "" := by
  have hc : htmlContentOf subject p = some (htmlTemplateOf subject p.text) := by
    rw [htmlContentOf, if_pos]
    exact ⟨by simp [jsTruthyOpt, hh], ht⟩
  have hm : (mailOptionsOf u p subject).html = htmlTemplateOf subject p.text := by
    show (match htmlContentOf subject p with
      | some h => if h = "" then p.text else h
      | none => p.text) = _
    rw [hc]
    simp [htmlTemplateOf_ne_empty]
  exact ⟨hm, hm ▸ htmlTemplateOf_ne_empty subject p.text⟩

/-- Witness for C9 (amended): the record with text `"hi"` and no html. -/
theorem claim_C9_html_template_from_text_witness :
    (mailOptionsOf "me@example.com" p9n "Subject").html =
        htmlTemplateOf "Subject" p9n.text ∧
      (mailOptionsOf "me@example.com" p9n "Subject").html ≠ "" :=
  claim_C9_html_template_from_text "me@example.com" "Subject" p9n rfl (by decide)

/-- Counterexample to C9 as stated: the call with `text = ""` (present) and
no `html` validates, yet the html body handed to the transport is the empty
string, not a non-empty template-derived document. -/
theorem claim_C9_counterexample :
    parseSendEmail j9 = .ok p9 ∧ p9.html = none ∧
      (mailOptionsOf "me@example.com" p9 "Subject").html = "" :=
  ⟨rfl, rfl, rfl⟩

/-! ### Subject cleanup lemmas for C10 -/

theorem mem_collapseWs (c : Char) : ∀ l : List Char, c ∈ collapseWs l → c = ' ' ∨ c ∈ l := by
  intro l
  induction l with
  | nil => intro h; simp [collapseWs] at h
  | cons a cs ih =>
    intro h
    rw [collapseWs.eq_def] at h
    simp only at h
    by_cases ha : isWsChar a
    · rw [if_pos ha] at h
      cases cs with
      | nil =>
        simp at h
        exact Or.inl h
      | cons d ds =>
        simp only at h
        by_cases hd : isWsChar d
        · rw [if_pos hd] at h
          rcases ih h with h1 | h1
          · exact Or.inl h1
          · exact Or.inr (List.mem_cons.2 (Or.inr h1))
        · rw [if_neg hd] at h
          rcases List.mem_cons.1 h with h1 | h1
          · exact Or.inl h1
          · rcases ih h1 with h2 | h2
            · exact Or.inl h2
            · exact Or.inr (List.mem_cons.2 (Or.inr h2))
    · rw [if_neg ha] at h
      rcases List.mem_cons.1 h with h1 | h1
      · exact Or.inr (List.mem_cons.2 (Or.inl h1))
      · rcases ih h1 with h2 | h2
        · exact Or.inl h2
        · exact Or.inr (List.mem_cons.2 (Or.inr h2))

theorem mem_trimChars (c : Char) (l : List Char) (h : c ∈ trimChars l) : c ∈ l := by
  rw [trimChars, List.mem_reverse] at h
  have h1 := (List.dropWhile_sublist _).subset h
  rw [List.mem_reverse] at h1
  exact (List.dropWhile_sublist _).subset h1

theorem nl_not_mem_replaceNl (l : List Char) : '\n' ∉ replaceNl l := by
  intro h
  rw [replaceNl] at h
  rcases List.mem_map.1 h with ⟨a, -, ha⟩
  by_cases h1 : a = '\n'
  · rw [if_pos h1] at ha
    exact absurd ha (by decide)
  · rw [if_neg h1] at ha
    exact h1 ha

theorem nl_not_mem_cleanupSubject (l : List Char) : '\n' ∉ cleanupSubject l := by
  intro h
  rw [cleanupSubject] at h
  rcases mem_collapseWs _ _ (mem_trimChars _ _ h) with h2 | h2
  · exact absurd h2 (by decide)
  · exact nl_not_mem_replaceNl _ h2

theorem truncate70_length (s : List Char) : (truncate70 s).length ≤ 70 := by
  rw [truncate70]
  by_cases h : 70 < s.length
  · rw [if_pos h]
    rw [List.length_append, List.length_take]
    have hm : min 67 s.length = 67 := min_eq_left (by omega)
    rw [hm]
    decide
  · rw [if_neg h]
    omega

theorem truncate70_no_nl (s : List Char) (h : '\n' ∉ s) : '\n' ∉ truncate70 s := by
  rw [truncate70]
  by_cases h7 : 70 < s.length
  · rw [if_pos h7]
    intro hm
    rcases List.mem_append.1 hm with hm | hm
    · exact h (List.take_subset _ _ hm)
    · exact absurd hm (by decide)
  · rw [if_neg h7]
    exact h

/-- C10: For every send-email call and every pair of model subject
responses, the final subject used for the outgoing email contains no
newline character and has length at most 70, and at most one fallback
subject-generation call is made beyond the first (two model calls for the
subject at most). -/
theorem claim_C10_subject_constraints (env : Env) (prompt subject : String) (n : ℕ)
    (h : subjectOf env prompt = .ok (subject, n)) :
    '\n' ∉ subject.data ∧ subject.length ≤ 70 ∧ n ≤ 2 := by
  rw [subjectOf] at h
  cases hg1 : env.gen (enhancedPromptOf prompt) with
  | error m => rw [hg1] at h; simp at h
  | ok r1 =>
    rw [hg1] at h
    simp only at h
    by_cases hf : needsFallback (cleanupSubject r1.data) = true
    · rw [if_pos hf] at h
      cases hg2 : env.gen (fallbackPromptOf prompt) with
      | error m => rw [hg2] at h; simp at h
      | ok r2 =>
        rw [hg2] at h
        simp only at h
        have hpair := Except.ok.inj h
        have hs : String.mk (truncate70 (cleanupSubject r2.data)) = subject :=
          congrArg Prod.fst hpair
        have hn : n = 2 := (congrArg Prod.snd hpair).symm
        subst hs
        refine ⟨?_, ?_, by omega⟩
        · exact truncate70_no_nl _ (nl_not_mem_cleanupSubject _)
        · exact truncate70_length _
    · rw [if_neg hf] at h
      have hpair := Except.ok.inj h
      have hs : String.mk (cleanupSubject r1.data) = subject := congrArg Prod.fst hpair
      have hn : n = 1 := (congrArg Prod.snd hpair).symm
      subst hs
      have hnf : ¬(70 < (cleanupSubject r1.data).length ∨
          (cleanupSubject r1.data).length < 10 ∨
          includesL (cleanupSubject r1.data) "Option".data = true ∨
          includesL (cleanupSubject r1.data) "**".data = true) := by
        simpa [needsFallback] using hf
      refine ⟨nl_not_mem_cleanupSubject _, ?_, by omega⟩
      show (cleanupSubject r1.data).length ≤ 70
      omega

/-- Witness for C10: a concrete environment whose first model response
cleans to a 32-character subject, using one model call. -/
theorem claim_C10_subject_constraints_witness :
    '\n' ∉ ("Team Meeting Notes For Next Week" : String).data ∧
      ("Team Meeting Notes For Next Week" : String).length ≤ 70 ∧ 1 ≤ 2 :=
  claim_C10_subject_constraints sendFailEnv "meeting"
    "Team Meeting Notes For Next Week" 1 rfl

end GeminiMCP
